import Mathlib

set_option maxRecDepth 8000

/-!
Shallow embedding of the `node-dymo-printer` repository (files
`src/dymo-services.ts` and `src/image-services.ts`) and proofs about it.

Buffers are modelled as `List Nat` of byte values; the per-instance
`chunks : Buffer[]` accumulator is modelled as `List (List Nat)`, and
`Buffer.concat` as `List.flatten`.  `Buffer.from([...])` truncates each
numeric entry to one byte, modelled by `% 256`.  Printer counts are `Int`
(JavaScript numbers used only in comparisons and a `for` loop upper bound).
-/

namespace DymoServices

/-- `CMD_RESET = Buffer.from([0x1b, '*'])` from `dymo-services.ts`. -/
def CMD_RESET : List Nat := [0x1b, 0x2a]

/-- `CMD_FULL_FORM_FEED = Buffer.from([0x1b, 'E'])`: feed to tear position. -/
def CMD_FULL_FORM_FEED : List Nat := [0x1b, 0x45]

/-- `CMD_SHORT_FORM_FEED = Buffer.from([0x1b, 'G'])`: feed to print head. -/
def CMD_SHORT_FORM_FEED : List Nat := [0x1b, 0x47]

/-- `CMD_TEXT_SPEED_MODE = Buffer.from([0x1b, 'h'])`. -/
def CMD_TEXT_SPEED_MODE : List Nat := [0x1b, 0x68]

/-- `CMD_DENSITY_NORMAL = Buffer.from([0x1b, 'e'])`. -/
def CMD_DENSITY_NORMAL : List Nat := [0x1b, 0x65]

/-- `CMD_NO_DOT_TAB = Buffer.from([0x1b, 'B', 0])`. -/
def CMD_NO_DOT_TAB : List Nat := [0x1b, 0x42, 0]

/-- `CMD_START_ESC = Buffer.from(new Array(313).fill(0x1b))`. -/
def CMD_START_ESC : List Nat := List.replicate 313 0x1b

/-- `DymoServices.clear()`: `this.chunks.length = 0` empties the array. -/
def clear (_chunks : List (List Nat)) : List (List Nat) := []

/--
`DymoServices.init(labelLineWidth, labelLength)`.  The method clears
`this.chunks` and appends the seven header chunks; we thread `this.chunks`
explicitly and return its new value.
`Math.ceil(labelLineWidth / 8)` on a natural number is `(w + 7) / 8`;
`Buffer.from` stores `labelLineWidthBytes & 0xFF`, i.e. `% 256`;
`labelLength & 0xFF` and `labelLength >> 8 & 0xFF` are `% 256` and
`/ 256 % 256` for label lengths in the 32-bit range.
-/
def init (chunks : List (List Nat)) (labelLineWidth labelLength : Nat) :
    List (List Nat) :=
  let chunks := clear chunks
  let labelLineWidthBytes := (labelLineWidth + 7) / 8
  let lsb := labelLength % 256
  let msb := labelLength / 256 % 256
  chunks ++
    [CMD_START_ESC, CMD_RESET, CMD_NO_DOT_TAB,
     [0x1b, 0x44, labelLineWidthBytes % 256],
     [0x1b, 0x4c, msb, lsb],
     CMD_TEXT_SPEED_MODE, CMD_DENSITY_NORMAL]

/--
`DymoServices.printBitmap(imageBuffer, printCount)` up to (but not
including) the final `sendDataToPrinter()` call: it validates its inputs,
rebuilds `this.chunks` via `init` and the copy loop, and we return the
resulting chunk list (`.ok`) or the thrown error message (`.error`).
`chunks0` is the prior `this.chunks` contents; `init` clears it, so it can
only survive into the (chunk-free) error outcomes.  The copy loop is
`for (count = 1; count <= printCount; count++)`, appending
`Buffer.from([0x16, ...imageBuffer[i]])` for each row `i` in order and then
the full form feed on the last copy, the short form feed otherwise.
-/
def printBitmap (chunks0 : List (List Nat)) (imageBuffer : List (List Nat))
    (printCount : Int) : Except String (List (List Nat)) :=
  if imageBuffer.length = 0 then
    .error "Empty imageBuffer, cannot print"
  else if printCount ≤ 0 then
    .error "PrintCount cannot be 0 or a negative number"
  else
    let labelLineWidth := (imageBuffer.headD []).length * 8
    let labelLength := imageBuffer.length
    let chunks := init chunks0 labelLineWidth labelLength
    let n := printCount.toNat
    let chunks := (List.range n).foldl (fun ch count =>
      let ch := imageBuffer.foldl
        (fun ch row => ch ++ [0x16 :: row.map (· % 256)]) ch
      if count + 1 = n then ch ++ [CMD_FULL_FORM_FEED]
      else ch ++ [CMD_SHORT_FORM_FEED]) chunks
  .ok chunks

/-- The body of one iteration of the copy loop of `printBitmap`, as the list
of chunks it appends: all scanlines, then the form feed chosen by whether
this is the last copy. -/
def copyChunks (imageBuffer : List (List Nat)) (n count : Nat) :
    List (List Nat) :=
  imageBuffer.map (fun row => 0x16 :: row.map (· % 256)) ++
    [if count + 1 = n then CMD_FULL_FORM_FEED else CMD_SHORT_FORM_FEED]

/-- The printer interface names accepted by `validateConfig`. -/
inductive PrinterInterface where
  | CUPS
  | NETWORK
  | WINDOWS
  | DEVICE
deriving DecidableEq

/-- The `PrinterConfig` type of `dymo-services.ts`; absent optional fields
are `none`. -/
structure PrinterConfig where
  interface : Option PrinterInterface
  host : Option String
  port : Option Nat
  deviceId : Option String
  device : Option String
deriving DecidableEq

/-- One entry of the `listPrinters()` result: `{deviceId, name}`. -/
structure Printer where
  deviceId : String
  name : String
deriving DecidableEq

/-- The transport request a delivery branch hands to the outside world
(socket write, `lp` spawn, `RawPrint.exe` spawn, or device-file write),
with all its parameters resolved.  The actual I/O is external. -/
inductive Delivery where
  | network (buffer : List Nat) (host : String) (port : Nat)
  | cups (buffer : List Nat) (deviceId : String)
  | windows (buffer : List Nat) (deviceId : String)
  | device (buffer : List Nat) (devicePath : String)
deriving DecidableEq

/-- Byte-wise check that `pat` occurs at the start of `s` (helper for the
substring search of `String.prototype.indexOf`). -/
def startsWithPat : List Char → List Char → Bool
  | [], _ => true
  | _ :: _, [] => false
  | a :: ps, b :: ss => a == b && startsWithPat ps ss

/-- `s.indexOf(pat) !== -1`: `pat` occurs somewhere in `s`. -/
def containsPat (pat : List Char) : List Char → Bool
  | [] => startsWithPat pat []
  | b :: ss => startsWithPat pat (b :: ss) || containsPat pat ss

/-- The discovery predicate of `sendDataToPrinter`:
`printer.name && printer.name.toLowerCase().indexOf('dymo') !== -1`.
(An empty name makes the search fail anyway, so the truthiness guard is
subsumed; `toLowerCase` is modelled per character, which agrees with
JavaScript on ASCII names.) -/
def nameMatchesDymo (name : String) : Bool :=
  containsPat ['d', 'y', 'm', 'o'] (name.data.map Char.toLower)

/-- `DymoServices.sendDataToNetworkPrinter(buffer, host, port)`: the JS
default parameters supply `localhost:9100` for absent values; the socket
write itself is external I/O, so the model returns the resolved request. -/
def sendDataToNetworkPrinter (buffer : List Nat) (host : Option String)
    (port : Option Nat) : Except String Delivery :=
  .ok (.network buffer (host.getD "localhost") (port.getD 9100))

/-- `DymoServices.sendDataToDevicePrinter(buffer, device)`: an empty (or
absent, hence falsy) device name throws before any write. -/
def sendDataToDevicePrinter (buffer : List Nat) (device : Option String) :
    Except String Delivery :=
  if device.getD "" = "" then
    .error "Cannot write to device, the device name is empty"
  else .ok (.device buffer (device.getD ""))

/-- `DymoServices.sendDataToCupsPrinter(buffer, deviceId)`: an empty (or
absent, hence falsy) device id throws before `lp` is spawned. -/
def sendDataToCupsPrinter (buffer : List Nat) (deviceId : Option String) :
    Except String Delivery :=
  if deviceId.getD "" = "" then
    .error "Cannot print to CUPS printer, deviceId is not configured."
  else .ok (.cups buffer (deviceId.getD ""))

/-- The `WINDOWS` dispatch branch: `sendDataToWindowsPrinter` performs no
guard on the device id and invokes the `RawPrint.exe` helper (external
I/O); the model returns the resolved request.  Its temp-file behaviour is
modelled separately by `sendDataToWindowsPrinterEffects`. -/
def sendDataToWindowsPrinterCmd (buffer : List Nat) (deviceId : Option String) :
    Except String Delivery :=
  .ok (.windows buffer (deviceId.getD ""))

/-- The four concrete-interface branches at the end of
`sendDataToPrinter`.  The `none` case corresponds to the trailing
`throw Error('Unknown printer interface configured')`, which is unreachable
from `sendDataToPrinter` because the discovery branch always stores a
concrete interface before re-dispatching. -/
def deliverConfigured (buffer : List Nat) (config : PrinterConfig) :
    Except String Delivery :=
  match config.interface with
  | some .NETWORK => sendDataToNetworkPrinter buffer config.host config.port
  | some .CUPS => sendDataToCupsPrinter buffer config.deviceId
  | some .WINDOWS => sendDataToWindowsPrinterCmd buffer config.deviceId
  | some .DEVICE => sendDataToDevicePrinter buffer config.device
  | none => .error "Unknown printer interface configured"

/--
`DymoServices.sendDataToPrinter()`: concatenates `this.chunks`, and either
dispatches on the configured interface, or — when none is configured —
consults `listPrinters()` (whose outcome is the `printers` argument, an
external system probe), picks the first name containing `dymo`
case-insensitively, stores the discovered interface
(`WINDOWS` on Windows, `CUPS` otherwise) and device id into `this.config`,
and calls itself once.  That single recursive call runs with a concrete
interface, so it is unfolded here to `deliverConfigured`.  Returns the
outcome together with the final `this.config` (the code mutates it in the
discovery branch). -/
def sendDataToPrinter (chunks : List (List Nat)) (config : PrinterConfig)
    (printers : Except String (List Printer)) (isWindows : Bool) :
    Except String Delivery × PrinterConfig :=
  let buffer := chunks.flatten
  match config.interface with
  | none =>
    match printers with
    | .error e => (.error e, config)
    | .ok ps =>
      match ps.find? (fun p => nameMatchesDymo p.name) with
      | none =>
        (.error "Cannot find Dymo LabelWriter. Try to configure manually.",
         config)
      | some printer =>
        let config2 := { config with
          interface := some (if isWindows then PrinterInterface.WINDOWS
            else PrinterInterface.CUPS),
          deviceId := some printer.deviceId }
        (deliverConfigured buffer config2, config2)
  | some _ => (deliverConfigured buffer config, config)

/-- `printBitmap` followed by its final `sendDataToPrinter()` call: a
validation error throws before any transport is touched and leaves the
configuration alone. -/
def printBitmapAndSend (chunks0 imageBuffer : List (List Nat))
    (printCount : Int) (config : PrinterConfig)
    (printers : Except String (List Printer)) (isWindows : Bool) :
    Except String Delivery × PrinterConfig :=
  match printBitmap chunks0 imageBuffer printCount with
  | .error e => (.error e, config)
  | .ok chunks => sendDataToPrinter chunks config printers isWindows

/-- File-system and process effects of the Windows raw-print delivery. -/
inductive WinEffect where
  | writeFileSync (path : String) (buffer : List Nat)
  | execRawPrint (deviceId : String) (path : String)
  | unlinkSync (path : String)
deriving DecidableEq

/-- `DymoServices.tmpFile(prefix, suffix, tmpdir)`:
`path.join(tmpdir, prefix + randomBytes(16).toString('hex') + suffix)`,
with the random hex digits passed in as `randomHex`. -/
def tmpFile (prefixArg sufArg tmpdir randomHex : String) : String :=
  tmpdir ++ "/" ++ prefixArg ++ randomHex ++ sufArg

/--
`DymoServices.sendDataToWindowsPrinter(buffer, deviceId)` as its trace of
file-system/process effects: write the buffer to
`tmpFile('tmp.', '', undefined)` (with `undefined` replaced by the OS temp
dir), run `RawPrint.exe` with `(deviceId, tmp)`, and, only in the
`.then` continuation of a successful helper run, `fs.unlinkSync(tmp)`; the
`.catch(reject)` path performs no cleanup.  `helperOk` is the helper
process outcome; the returned `Bool` is whether the promise resolved. -/
def sendDataToWindowsPrinterEffects (buffer : List Nat) (deviceId : String)
    (tmpdir randomHex : String) (helperOk : Bool) : List WinEffect × Bool :=
  let tmp := tmpFile "tmp." "" tmpdir randomHex
  let trace := [WinEffect.writeFileSync tmp buffer,
                WinEffect.execRawPrint deviceId tmp]
  if helperOk then (trace ++ [WinEffect.unlinkSync tmp], true)
  else (trace, false)

/-- `setBit(value, bitIndex)` from `image-services.ts`:
`value | (1 << bitIndex)`. -/
def setBit (value bitIndex : Nat) : Nat := value ||| (1 <<< bitIndex)

/--
One invocation of the `scan` callback of `convertImageToBitmap` on pixel
`(x, y)`: lazily push a fresh zeroed row of `Math.ceil(width / 8)` bytes
when row `y` does not exist yet, then, when the post-pipeline red channel
`data x y` is below 50, set bit `7 - (x % 8)` of byte `Math.floor(x / 8)`
of row `y`.  `data` abstracts the red channel of the image produced by the
external Jimp pipeline `opaque → greyscale → brightness(0.3) → dither →
posterize(2)`. -/
def scanPixel (data : Nat → Nat → Nat) (width : Nat)
    (bitmap : List (List Nat)) (x y : Nat) : List (List Nat) :=
  let bitmap :=
    if bitmap.length ≤ y then
      bitmap ++ [List.replicate ((width + 7) / 8) 0]
    else bitmap
  if data x y < 50 then
    let row := bitmap.getD y []
    let byteIndex := x / 8
    bitmap.set y (row.set byteIndex (setBit (row.getD byteIndex 0) (7 - x % 8)))
  else bitmap

/-- `convertImageToBitmap(image)`: Jimp's `scan(0, 0, width, height, f)`
visits pixels in raster order (row-major, left to right, top to bottom) and
runs the callback on each. -/
def convertImageToBitmap (data : Nat → Nat → Nat) (width height : Nat) :
    List (List Nat) :=
  (List.range height).foldl
    (fun bm y =>
      (List.range width).foldl (fun bm x => scanPixel data width bm x y) bm)
    []

/-- The effect of the scan callback on the already-allocated row `y` when
pixel `x` is processed (the row-local part of `scanPixel`). -/
def rowStep (data : Nat → Nat → Nat) (y : Nat) (row : List Nat) (x : Nat) :
    List Nat :=
  if data x y < 50 then
    row.set (x / 8) (setBit (row.getD (x / 8) 0) (7 - x % 8))
  else row

/-- Row `y` of the bitmap as built by one full pass of the inner scan loop
over a zero-initialised row. -/
def scanRow (data : Nat → Nat → Nat) (width y : Nat) : List Nat :=
  (List.range width).foldl (rowStep data y)
    (List.replicate ((width + 7) / 8) 0)

end DymoServices

/- ### Generic fold/append helpers -/

/-- Folding an append-one-element step over a list appends the mapped list. -/
theorem foldl_append_singleton {α β : Type} (f : α → β) (l : List α)
    (acc : List β) :
    l.foldl (fun ch a => ch ++ [f a]) acc = acc ++ l.map f := by
  induction l generalizing acc with
  | nil => simp
  | cons x xs ih => simp [List.foldl_cons, ih, List.append_assoc]

/-- Folding an append-a-block step over a list appends the flat-mapped list. -/
theorem foldl_append_block {α β : Type} (g : α → List β) (l : List α)
    (acc : List β) :
    l.foldl (fun ch a => ch ++ g a) acc = acc ++ l.flatMap g := by
  induction l generalizing acc with
  | nil => simp
  | cons x xs ih => simp [List.foldl_cons, ih, List.append_assoc]

namespace DymoServices

/-- Closed form of `printBitmap` on valid input: the header chunks followed
by the per-copy scanline/form-feed chunks. -/
theorem printBitmap_eq_ok (chunks0 imageBuffer : List (List Nat))
    (printCount : Int) (hne : imageBuffer.length ≠ 0)
    (hpc : ¬ printCount ≤ 0) :
    printBitmap chunks0 imageBuffer printCount =
      .ok (init chunks0 ((imageBuffer.headD []).length * 8) imageBuffer.length ++
        (List.range printCount.toNat).flatMap
          (copyChunks imageBuffer printCount.toNat)) := by
  unfold printBitmap
  simp only [hne, hpc, if_false, if_neg]
  congr 1
  have h : ∀ (ch : List (List Nat)) (count : Nat),
      (imageBuffer.foldl (fun ch row => ch ++ [0x16 :: row.map (· % 256)]) ch)
        ++ [if count + 1 = printCount.toNat then CMD_FULL_FORM_FEED
            else CMD_SHORT_FORM_FEED]
      = ch ++ copyChunks imageBuffer printCount.toNat count := by
    intro ch count
    rw [foldl_append_singleton]
    simp [copyChunks, List.append_assoc]
  rw [show (fun (ch : List (List Nat)) count =>
      if count + 1 = printCount.toNat then
        (imageBuffer.foldl (fun ch row => ch ++ [0x16 :: row.map (· % 256)]) ch)
          ++ [CMD_FULL_FORM_FEED]
      else
        (imageBuffer.foldl (fun ch row => ch ++ [0x16 :: row.map (· % 256)]) ch)
          ++ [CMD_SHORT_FORM_FEED]) =
    (fun ch count => ch ++ copyChunks imageBuffer printCount.toNat count) from ?_]
  · exact foldl_append_block (copyChunks imageBuffer printCount.toNat) _ _
  · funext ch count
    by_cases hc : count + 1 = printCount.toNat
    · simpa [hc] using h ch count
    · simpa [hc] using h ch count

end DymoServices

/-- Counting occurrences inside a flat-mapped list, copy by copy. -/
theorem count_flatMap {α β : Type} [BEq β] (g : α → List β) (l : List α)
    (b : β) :
    (l.flatMap g).count b = (l.map fun a => (g a).count b).sum := by
  induction l with
  | nil => simp
  | cons x xs ih => simp [List.flatMap_cons, List.count_append, ih]

/-- A `range` fold of indicator values of the last index sums to `1`. -/
theorem sum_indicator_last (n : Nat) (h : 1 ≤ n) :
    ((List.range n).map (fun c => if c + 1 = n then (1 : Nat) else 0)).sum
      = 1 := by
  obtain ⟨m, rfl⟩ : ∃ m, n = m + 1 := ⟨n - 1, by omega⟩
  rw [List.range_succ, List.map_append, List.sum_append]
  have hz : ((List.range m).map
      (fun c => if c + 1 = m + 1 then (1 : Nat) else 0)).sum = 0 := by
    apply List.sum_eq_zero
    intro x hx
    simp only [List.mem_map, List.mem_range] at hx
    obtain ⟨c, hc, rfl⟩ := hx
    simp [Nat.ne_of_lt hc]
  rw [hz]
  simp

/-- A `range` fold of indicator values of the non-last indices sums to
`n - 1`. -/
theorem sum_indicator_nonlast (n : Nat) (h : 1 ≤ n) :
    ((List.range n).map (fun c => if c + 1 = n then (0 : Nat) else 1)).sum
      = n - 1 := by
  obtain ⟨m, rfl⟩ : ∃ m, n = m + 1 := ⟨n - 1, by omega⟩
  rw [List.range_succ, List.map_append, List.sum_append]
  have hrep : (List.range m).map
      (fun c => if c + 1 = m + 1 then (0 : Nat) else 1)
      = List.replicate m 1 := by
    apply List.eq_replicate_iff.mpr
    constructor
    · simp
    · intro x hx
      simp only [List.mem_map, List.mem_range] at hx
      obtain ⟨c, hc, rfl⟩ := hx
      simp [Nat.ne_of_lt hc]
  rw [hrep]
  simp [List.sum_replicate]

namespace DymoServices

/-- No header chunk produced by `init` equals the full form feed. -/
theorem count_init_full (chunks0 : List (List Nat)) (w h : Nat) :
    (init chunks0 w h).count CMD_FULL_FORM_FEED = 0 := by
  apply List.count_eq_zero.mpr
  simp only [init, clear, CMD_START_ESC, CMD_RESET, CMD_NO_DOT_TAB,
    CMD_TEXT_SPEED_MODE, CMD_DENSITY_NORMAL, CMD_FULL_FORM_FEED,
    List.nil_append, List.mem_cons, List.mem_singleton]
  intro hmem
  rcases hmem with h | h | h | h | h | h | h
  · exact absurd (congrArg List.length h) (by rw [List.length_replicate]; simp)
  · exact absurd h (by decide)
  · exact absurd (congrArg List.length h) (by simp)
  · exact absurd (congrArg List.length h) (by simp)
  · exact absurd (congrArg List.length h) (by simp)
  · exact absurd h (by decide)
  · exact absurd h (by decide)

/-- No header chunk produced by `init` equals the short form feed. -/
theorem count_init_short (chunks0 : List (List Nat)) (w h : Nat) :
    (init chunks0 w h).count CMD_SHORT_FORM_FEED = 0 := by
  apply List.count_eq_zero.mpr
  simp only [init, clear, CMD_START_ESC, CMD_RESET, CMD_NO_DOT_TAB,
    CMD_TEXT_SPEED_MODE, CMD_DENSITY_NORMAL, CMD_SHORT_FORM_FEED,
    List.nil_append, List.mem_cons, List.mem_singleton]
  intro hmem
  rcases hmem with h | h | h | h | h | h | h
  · exact absurd (congrArg List.length h) (by rw [List.length_replicate]; simp)
  · exact absurd h (by decide)
  · exact absurd (congrArg List.length h) (by simp)
  · exact absurd (congrArg List.length h) (by simp)
  · exact absurd (congrArg List.length h) (by simp)
  · exact absurd h (by decide)
  · exact absurd h (by decide)

/-- A scanline chunk (starting with the marker byte `0x16`) is never a form
feed chunk (which starts with `0x1b`). -/
theorem count_scanlines (imageBuffer : List (List Nat)) (cmd : List Nat)
    (hcmd : cmd.headD 0 = 0x1b) :
    ((imageBuffer.map fun row => 0x16 :: row.map (· % 256)).count cmd) = 0 := by
  apply List.count_eq_zero.mpr
  simp only [List.mem_map]
  rintro ⟨row, -, rfl⟩
  simp at hcmd

/-- Form-feed census of one copy's chunks: the last copy carries exactly the
full form feed, every other copy exactly the short one. -/
theorem count_copyChunks_full (imageBuffer : List (List Nat)) (n c : Nat) :
    (copyChunks imageBuffer n c).count CMD_FULL_FORM_FEED
      = if c + 1 = n then 1 else 0 := by
  unfold copyChunks
  rw [List.count_append, count_scanlines _ _ (by simp [CMD_FULL_FORM_FEED])]
  by_cases hc : c + 1 = n
  · simp [hc, List.count_singleton]
  · simp only [hc, if_false, Nat.zero_add]
    rw [List.count_eq_zero]
    simp [CMD_FULL_FORM_FEED, CMD_SHORT_FORM_FEED, hc]

/-- Short-form-feed census of one copy's chunks. -/
theorem count_copyChunks_short (imageBuffer : List (List Nat)) (n c : Nat) :
    (copyChunks imageBuffer n c).count CMD_SHORT_FORM_FEED
      = if c + 1 = n then 0 else 1 := by
  unfold copyChunks
  rw [List.count_append, count_scanlines _ _ (by simp [CMD_SHORT_FORM_FEED])]
  by_cases hc : c + 1 = n
  · simp only [hc, if_true, Nat.zero_add]
    rw [List.count_eq_zero]
    simp [CMD_FULL_FORM_FEED, CMD_SHORT_FORM_FEED, hc]
  · simp [hc, List.count_singleton]

end DymoServices

namespace DymoServices

/--
C1: For every non-empty packed bitmap and every `printCount >= 1`, the
command buffer built by `printBitmap`/`init` begins with the 313 ESC bytes,
then the reset command, set-dot-tab-0, set-bytes-per-line, set-label-length
(two bytes, most-significant first, equal to the row count), text-speed-mode
and density-normal, in that order, before any scanline data; and on the
8×8 all-black bitmap the bytes-per-line value is `0x01` and the label-length
bytes are `0x00 0x08`.  (The two label-length bytes can only equal the row
count when it fits in sixteen bits, hence the `< 65536` hypothesis.)
-/
theorem C1_command_header_order (chunks0 imageBuffer : List (List Nat))
    (printCount : Int) (h1 : imageBuffer.length ≠ 0) (h2 : 1 ≤ printCount)
    (h3 : imageBuffer.length < 65536) :
    printBitmap chunks0 imageBuffer printCount =
      .ok ([List.replicate 313 0x1b, [0x1b, 0x2a], [0x1b, 0x42, 0],
            [0x1b, 0x44, (imageBuffer.headD []).length % 256],
            [0x1b, 0x4c, imageBuffer.length / 256, imageBuffer.length % 256],
            [0x1b, 0x68], [0x1b, 0x65]] ++
           (List.range printCount.toNat).flatMap
             (copyChunks imageBuffer printCount.toNat)) ∧
    (imageBuffer.length / 256) * 256 + imageBuffer.length % 256
      = imageBuffer.length ∧
    printBitmap [] (List.replicate 8 [0xff]) 1 =
      .ok ([List.replicate 313 0x1b, [0x1b, 0x2a], [0x1b, 0x42, 0],
            [0x1b, 0x44, 0x01], [0x1b, 0x4c, 0x00, 0x08],
            [0x1b, 0x68], [0x1b, 0x65]] ++
           (List.range 1).flatMap (copyChunks (List.replicate 8 [0xff]) 1)) := by
  refine ⟨?_, by omega, ?_⟩
  · rw [printBitmap_eq_ok _ _ _ h1 (by omega)]
    have e1 : ((imageBuffer.headD []).length * 8 + 7) / 8
        = (imageBuffer.headD []).length := by omega
    have e2 : imageBuffer.length / 256 % 256 = imageBuffer.length / 256 := by
      omega
    simp [init, clear, CMD_START_ESC, CMD_RESET, CMD_NO_DOT_TAB,
      CMD_TEXT_SPEED_MODE, CMD_DENSITY_NORMAL, e1, e2]
    omega
  · rw [printBitmap_eq_ok _ _ _ (by decide) (by decide)]
    simp [init, clear, CMD_START_ESC, CMD_RESET, CMD_NO_DOT_TAB,
      CMD_TEXT_SPEED_MODE, CMD_DENSITY_NORMAL]

/-- Witness for C1 at the 8×8 all-black bitmap with one copy. -/
theorem C1_command_header_order_witness :
    (List.replicate 8 [(0xff : Nat)]).length ≠ 0 ∧ (1 : Int) ≤ 1 ∧
    (List.replicate 8 [(0xff : Nat)]).length < 65536 ∧
    printBitmap [] (List.replicate 8 [0xff]) 1 =
      .ok ([List.replicate 313 0x1b, [0x1b, 0x2a], [0x1b, 0x42, 0],
            [0x1b, 0x44, 0x01], [0x1b, 0x4c, 0x00, 0x08],
            [0x1b, 0x68], [0x1b, 0x65]] ++
           (List.range 1).flatMap (copyChunks (List.replicate 8 [0xff]) 1)) :=
  ⟨by decide, by decide, by decide,
   (C1_command_header_order [] (List.replicate 8 [0xff]) 1 (by decide)
     (by decide) (by decide)).2.2⟩

/--
C2: for every non-empty packed bitmap and every `printCount >= 1`, the
chunk list built by `printBitmap` contains exactly one full form feed,
emitted as the very last chunk (after the scanlines of the last copy), and
exactly `printCount - 1` short form feeds; each copy's scanlines appear in
top-to-bottom row order, each framed as the marker byte `0x16` followed by
the row's packed bytes (the `copyChunks` equation).
-/
theorem C2_form_feeds (chunks0 imageBuffer : List (List Nat))
    (printCount : Int) (h1 : imageBuffer.length ≠ 0) (h2 : 1 ≤ printCount) :
    ∃ chunks, printBitmap chunks0 imageBuffer printCount = .ok chunks ∧
      chunks = init chunks0 ((imageBuffer.headD []).length * 8)
          imageBuffer.length ++
        (List.range printCount.toNat).flatMap
          (copyChunks imageBuffer printCount.toNat) ∧
      chunks.count CMD_FULL_FORM_FEED = 1 ∧
      chunks.count CMD_SHORT_FORM_FEED = printCount.toNat - 1 ∧
      chunks.getLast? = some CMD_FULL_FORM_FEED := by
  have hn : 1 ≤ printCount.toNat := by omega
  refine ⟨_, printBitmap_eq_ok _ _ _ h1 (by omega), rfl, ?_, ?_, ?_⟩
  · rw [List.count_append, count_init_full, count_flatMap]
    simp only [count_copyChunks_full]
    rw [sum_indicator_last _ hn]
  · rw [List.count_append, count_init_short, count_flatMap]
    simp only [count_copyChunks_short]
    rw [sum_indicator_nonlast _ hn]
    omega
  · obtain ⟨m, hm⟩ : ∃ m, printCount.toNat = m + 1 :=
      ⟨printCount.toNat - 1, by omega⟩
    rw [hm, List.range_succ, List.flatMap_append]
    have hlast : ([m].flatMap (copyChunks imageBuffer (m + 1)))
        = (imageBuffer.map fun row => 0x16 :: row.map (· % 256))
          ++ [CMD_FULL_FORM_FEED] := by
      simp [copyChunks]
    rw [hlast, ← List.append_assoc, ← List.append_assoc,
      List.getLast?_concat]

end DymoServices

namespace DymoServices

/--
C3 (code bug): `init` performs no range check on the derived bytes-per-line
value.  For a bitmap whose first row holds 256 bytes, the derived value 256
does not fit the one-byte protocol field; `printBitmap` nevertheless
succeeds and `Buffer.from` silently truncates the field to `256 & 0xFF = 0`
instead of failing fast.
-/
theorem C3_bytes_per_line_silently_truncated :
    (printBitmap [] [List.replicate 256 (0 : Nat)] 1).toOption ≠ none ∧
    ((printBitmap [] [List.replicate 256 (0 : Nat)] 1).toOption.getD
        []).getD 3 []
      = [0x1b, 0x44, 0] ∧
    (List.replicate 256 (0 : Nat)).length * 8 / 8 % 256 = 0 := by
  refine ⟨?_, ?_, by decide⟩ <;> decide

/--
C7: `printBitmap` throws on an empty bitmap or a non-positive print count
before `init` or any `append` runs, so the error outcome carries no chunk
list and `sendDataToPrinter` is never reached (no transport is touched and
the configuration is left alone).
-/
theorem C7_invalid_input_rejected (chunks0 imageBuffer : List (List Nat))
    (printCount : Int) (config : PrinterConfig)
    (printers : Except String (List Printer)) (isWindows : Bool)
    (h : imageBuffer.length = 0 ∨ printCount ≤ 0) :
    ∃ e, printBitmap chunks0 imageBuffer printCount = .error e ∧
      printBitmapAndSend chunks0 imageBuffer printCount config printers
        isWindows = (.error e, config) := by
  by_cases he : imageBuffer.length = 0
  · refine ⟨"Empty imageBuffer, cannot print", ?_, ?_⟩
    · simp [printBitmap, he]
    · simp [printBitmapAndSend, printBitmap, he]
  · have hn : printCount ≤ 0 := h.resolve_left he
    refine ⟨"PrintCount cannot be 0 or a negative number", ?_, ?_⟩
    · simp [printBitmap, he, hn]
    · simp [printBitmapAndSend, printBitmap, he, hn]

/-- Witness for C7 at the empty bitmap. -/
theorem C7_invalid_input_rejected_witness :
    (([] : List (List Nat)).length = 0 ∨ (1 : Int) ≤ 0) ∧
    ∃ e, printBitmap [] ([] : List (List Nat)) 1 = .error e ∧
      printBitmapAndSend [] ([] : List (List Nat)) 1
        ⟨none, none, none, none, none⟩ (.ok []) false
        = (.error e, ⟨none, none, none, none, none⟩) :=
  ⟨Or.inl rfl,
   C7_invalid_input_rejected [] [] 1 ⟨none, none, none, none, none⟩
     (.ok []) false (Or.inl rfl)⟩

/--
C9: the command chunks built by `printBitmap` depend only on the bitmap and
the print count, not on the instance state left by a previous call:
`init` empties `this.chunks` via `clear()` before anything is appended, so
two calls with identical arguments from any two prior states produce
identical chunk lists and identical concatenated (`Buffer.concat`) byte
buffers.
-/
theorem C9_no_per_call_entropy (s1 s2 imageBuffer : List (List Nat))
    (printCount : Int) :
    printBitmap s1 imageBuffer printCount
      = printBitmap s2 imageBuffer printCount ∧
    (printBitmap s1 imageBuffer printCount).map List.flatten
      = (printBitmap s2 imageBuffer printCount).map List.flatten :=
  ⟨rfl, rfl⟩

/--
C10: `printBitmap` derives the bytes-per-line header byte solely from the
byte length of row 0 (`imageBuffer[0].length`), never checks that other
rows have the same length — any ragged bitmap is accepted — and each
scanline chunk carries its own row's bytes, hence its own row's length.
Chunk 3 is the set-bytes-per-line command and chunk `7 + i` is the
scanline of row `i` of the first copy.
-/
theorem C10_ragged_bitmap_accepted (chunks0 imageBuffer : List (List Nat))
    (printCount : Int) (h1 : imageBuffer.length ≠ 0)
    (h2 : 1 ≤ printCount) :
    ∃ chunks, printBitmap chunks0 imageBuffer printCount = .ok chunks ∧
      chunks.getD 3 []
        = [0x1b, 0x44, (imageBuffer.headD []).length % 256] ∧
      ∀ i, i < imageBuffer.length →
        chunks.getD (7 + i) []
            = 0x16 :: (imageBuffer.getD i []).map (· % 256) ∧
        (chunks.getD (7 + i) []).length
            = (imageBuffer.getD i []).length + 1 := by
  refine ⟨_, printBitmap_eq_ok _ _ _ h1 (by omega), ?_, ?_⟩
  · have hlen : (3 : Nat) <
        (init chunks0 ((imageBuffer.headD []).length * 8)
          imageBuffer.length).length := by
      simp [init, clear]
    rw [List.getD_append _ _ _ _ hlen]
    have e1 : ((imageBuffer.headD []).length * 8 + 7) / 8
        = (imageBuffer.headD []).length := by omega
    simp [init, clear, e1]
    omega
  · intro i hi
    have hlen7 : (init chunks0 ((imageBuffer.headD []).length * 8)
        imageBuffer.length).length = 7 := by simp [init, clear]
    have hsc : ((List.range printCount.toNat).flatMap
          (copyChunks imageBuffer printCount.toNat)).getD i []
        = 0x16 :: (imageBuffer.getD i []).map (· % 256) := by
      obtain ⟨m, hm⟩ : ∃ m, printCount.toNat = m + 1 :=
        ⟨printCount.toNat - 1, by omega⟩
      rw [hm, List.range_succ_eq_map, List.flatMap_cons]
      have hscan : i < (imageBuffer.map
          (fun row => 0x16 :: row.map (· % 256))).length := by
        simpa using hi
      rw [copyChunks, List.append_assoc,
        List.getD_append _ _ _ _ (by simpa using hi)]
      rw [List.getD_eq_getElem?_getD, List.getElem?_map,
        List.getElem?_eq_getElem hi]
      simp [List.getD_eq_getElem?_getD, List.getElem?_eq_getElem hi]
    constructor
    · rw [List.getD_append_right _ _ _ _ (by omega), hlen7]
      simpa using hsc
    · rw [List.getD_append_right _ _ _ _ (by omega), hlen7]
      have h7 : 7 + i - 7 = i := by omega
      rw [h7, hsc]
      simp

/-- Witness for C10 at a concrete ragged bitmap (row 0 has two bytes,
row 1 one byte). -/
theorem C10_ragged_bitmap_accepted_witness :
    ([[1, 2], [3]] : List (List Nat)).length ≠ 0 ∧ (1 : Int) ≤ 1 ∧
    (∃ chunks, printBitmap [] [[1, 2], [3]] 1 = .ok chunks ∧
      chunks.getD 3 []
        = [0x1b, 0x44, (([[1, 2], [3]] : List (List Nat)).headD []).length % 256] ∧
      ∀ i, i < ([[1, 2], [3]] : List (List Nat)).length →
        chunks.getD (7 + i) []
            = 0x16 :: (([[1, 2], [3]] : List (List Nat)).getD i []).map (· % 256) ∧
        (chunks.getD (7 + i) []).length
            = (([[1, 2], [3]] : List (List Nat)).getD i []).length + 1) :=
  ⟨by decide, by decide,
   C10_ragged_bitmap_accepted [] [[1, 2], [3]] 1 (by decide) (by decide)⟩

end DymoServices

namespace DymoServices

/--
C6: with no interface configured, `sendDataToPrinter` consults the printer
enumeration and takes the first entry whose name contains `dymo`
case-insensitively (`List.find?` returns the first match, mirroring
`Array.prototype.find`).  No match rejects with the no-printer-found
message; a match stores `WINDOWS` (on Windows) or `CUPS` (otherwise) plus
the discovered device id and dispatches exactly once through
`deliverConfigured` — in particular, for a non-empty device id the outcome
is the corresponding delivery request itself.
-/
theorem C6_auto_discovery (chunks : List (List Nat)) (config : PrinterConfig)
    (printers : List Printer) (isWindows : Bool) (p : Printer)
    (hifc : config.interface = none) :
    (printers.find? (fun q => nameMatchesDymo q.name) = none →
      (sendDataToPrinter chunks config (.ok printers) isWindows).1
        = .error "Cannot find Dymo LabelWriter. Try to configure manually.") ∧
    (printers.find? (fun q => nameMatchesDymo q.name) = some p →
      sendDataToPrinter chunks config (.ok printers) isWindows
        = (deliverConfigured chunks.flatten
            { config with
              interface := some (if isWindows then PrinterInterface.WINDOWS
                else PrinterInterface.CUPS),
              deviceId := some p.deviceId },
           { config with
             interface := some (if isWindows then PrinterInterface.WINDOWS
               else PrinterInterface.CUPS),
             deviceId := some p.deviceId }) ∧
      (p.deviceId ≠ "" →
        (sendDataToPrinter chunks config (.ok printers) isWindows).1
          = .ok (if isWindows then
              Delivery.windows chunks.flatten p.deviceId
            else Delivery.cups chunks.flatten p.deviceId))) := by
  constructor
  · intro hf
    simp [sendDataToPrinter, hifc, hf]
  · intro hf
    refine ⟨by simp [sendDataToPrinter, hifc, hf], ?_⟩
    intro hd
    cases hw : isWindows <;>
      simp [sendDataToPrinter, hifc, hf, hw, deliverConfigured,
        sendDataToWindowsPrinterCmd, sendDataToCupsPrinter, hd]

/-- Witness for C6: discovery over a one-element enumeration holding the
LabelWriter 450, on a non-Windows platform, yields a CUPS delivery of the
buffer to the discovered device id. -/
theorem C6_auto_discovery_witness :
    (sendDataToPrinter [[1]] ⟨none, none, none, none, none⟩
      (.ok [⟨"DYMO_LabelWriter_450", "DYMO LabelWriter 450"⟩]) false).1
      = .ok (Delivery.cups [1] "DYMO_LabelWriter_450") :=
  ((C6_auto_discovery [[1]] ⟨none, none, none, none, none⟩
      [⟨"DYMO_LabelWriter_450", "DYMO LabelWriter 450"⟩] false
      ⟨"DYMO_LabelWriter_450", "DYMO LabelWriter 450"⟩ rfl).2
    (by decide)).2 (by decide)

/--
C8 counterexample: a print call that auto-discovers the printer does NOT
leave the per-instance configuration unchanged — `sendDataToPrinter`
stores the resolved interface and device id into `this.config`.
-/
theorem C8_config_mutation_counterexample :
    (sendDataToPrinter [] ⟨none, none, none, none, none⟩
      (.ok [⟨"DYMO_LabelWriter_450", "DYMO LabelWriter 450"⟩]) false).2
      ≠ ⟨none, none, none, none, none⟩ := by decide

/--
C8 (amended): a call with a concrete interface configured leaves the
configuration unchanged, but a discovery call mutates it — it stores the
resolved interface (`WINDOWS` on Windows, `CUPS` otherwise) and the
discovered device id — and that resolved target persists: any later call on
the same instance starts from the mutated configuration, skips discovery
entirely (its outcome does not depend on the printer enumeration), and
leaves the configuration fixed from then on.
-/
theorem C8_resolved_target_persists (chunks : List (List Nat))
    (config : PrinterConfig) (ps : List Printer) (isWindows : Bool)
    (p : Printer) :
    (config.interface ≠ none →
      (sendDataToPrinter chunks config (.ok ps) isWindows).2 = config) ∧
    (config.interface = none →
      ps.find? (fun q => nameMatchesDymo q.name) = some p →
      (sendDataToPrinter chunks config (.ok ps) isWindows).2
        = { config with
            interface := some (if isWindows then PrinterInterface.WINDOWS
              else PrinterInterface.CUPS),
            deviceId := some p.deviceId } ∧
      ∀ (chunks2 : List (List Nat))
        (printers2 : Except String (List Printer)),
        sendDataToPrinter chunks2
          (sendDataToPrinter chunks config (.ok ps) isWindows).2 printers2
          isWindows
        = (deliverConfigured chunks2.flatten
            (sendDataToPrinter chunks config (.ok ps) isWindows).2,
           (sendDataToPrinter chunks config (.ok ps) isWindows).2)) := by
  constructor
  · intro hifc
    cases hc : config.interface with
    | none => exact absurd hc hifc
    | some i => simp [sendDataToPrinter, hc]
  · intro hifc hf
    have h2 : (sendDataToPrinter chunks config (.ok ps) isWindows).2
        = { config with
            interface := some (if isWindows then PrinterInterface.WINDOWS
              else PrinterInterface.CUPS),
            deviceId := some p.deviceId } := by
      simp [sendDataToPrinter, hifc, hf]
    refine ⟨h2, ?_⟩
    intro chunks2 printers2
    rw [h2]
    cases isWindows <;> simp [sendDataToPrinter]

/-- Witness for C8's amended statement: after a discovery call, a second
call on the mutated configuration ignores even a failing printer probe and
dispatches directly. -/
theorem C8_resolved_target_persists_witness :
    (sendDataToPrinter [] ⟨none, none, none, none, none⟩
        (.ok [⟨"DYMO_LabelWriter_450", "DYMO LabelWriter 450"⟩]) false).2
      = { (⟨none, none, none, none, none⟩ : PrinterConfig) with
          interface := some (if false then PrinterInterface.WINDOWS
            else PrinterInterface.CUPS),
          deviceId := some "DYMO_LabelWriter_450" } ∧
    sendDataToPrinter [[2]]
        (sendDataToPrinter [] ⟨none, none, none, none, none⟩
          (.ok [⟨"DYMO_LabelWriter_450", "DYMO LabelWriter 450"⟩]) false).2
        (.error "lpstat failed") false
      = (deliverConfigured [2]
          (sendDataToPrinter [] ⟨none, none, none, none, none⟩
            (.ok [⟨"DYMO_LabelWriter_450", "DYMO LabelWriter 450"⟩]) false).2,
         (sendDataToPrinter [] ⟨none, none, none, none, none⟩
           (.ok [⟨"DYMO_LabelWriter_450", "DYMO LabelWriter 450"⟩]) false).2) := by
  have h := (C8_resolved_target_persists [] ⟨none, none, none, none, none⟩
      [⟨"DYMO_LabelWriter_450", "DYMO LabelWriter 450"⟩] false
      ⟨"DYMO_LabelWriter_450", "DYMO LabelWriter 450"⟩).2 rfl (by decide)
  exact ⟨h.1, h.2 [[2]] (.error "lpstat failed")⟩

/--
C4 counterexample: when the raw-print helper fails, the `.catch(reject)`
path of `sendDataToWindowsPrinter` performs no `fs.unlinkSync`, so the
temporary file is NOT deleted on every outcome.
-/
theorem C4_no_cleanup_on_failure :
    WinEffect.unlinkSync (tmpFile "tmp." "" "/tmp" "00112233445566778899aabbccddeeff")
      ∉ (sendDataToWindowsPrinterEffects [7] "DYMO LabelWriter 450"
          "/tmp" "00112233445566778899aabbccddeeff" false).1 ∧
    (sendDataToWindowsPrinterEffects [7] "DYMO LabelWriter 450"
        "/tmp" "00112233445566778899aabbccddeeff" false).2 = false := by
  constructor
  · intro hmem
    simp [sendDataToWindowsPrinterEffects, tmpFile] at hmem
  · rfl

/--
C4 (amended): the Windows raw-print path writes the buffer to a uniquely
named temporary file (distinct random hex, same call parameters ⇒ distinct
path), invokes the RawPrint helper with `(deviceId, tempFilePath)`, and
deletes the temporary file only when the helper succeeds; when the helper
fails the promise rejects with no cleanup.
-/
theorem C4_cleanup_only_on_success (buffer : List Nat)
    (deviceId tmpdir randomHex randomHex2 : String) (helperOk : Bool)
    (hne : randomHex ≠ randomHex2) :
    sendDataToWindowsPrinterEffects buffer deviceId tmpdir randomHex helperOk
      = ([WinEffect.writeFileSync (tmpFile "tmp." "" tmpdir randomHex) buffer,
          WinEffect.execRawPrint deviceId (tmpFile "tmp." "" tmpdir randomHex)]
          ++ (if helperOk then
              [WinEffect.unlinkSync (tmpFile "tmp." "" tmpdir randomHex)]
            else []),
         helperOk) ∧
    ((WinEffect.unlinkSync (tmpFile "tmp." "" tmpdir randomHex)
        ∈ (sendDataToWindowsPrinterEffects buffer deviceId tmpdir randomHex
            helperOk).1)
      ↔ helperOk = true) ∧
    tmpFile "tmp." "" tmpdir randomHex ≠ tmpFile "tmp." "" tmpdir randomHex2 := by
  refine ⟨?_, ?_, ?_⟩
  · cases helperOk <;> simp [sendDataToWindowsPrinterEffects]
  · cases helperOk <;> simp [sendDataToWindowsPrinterEffects, tmpFile]
  · intro heq
    apply hne
    have hdata := congrArg String.data heq
    simp only [tmpFile, String.data_append] at hdata
    have := List.append_cancel_right hdata
    have := List.append_cancel_left this
    exact String.ext this

/-- Witness for C4's amended statement at concrete parameters (successful
helper run, two distinct random strings). -/
theorem C4_cleanup_only_on_success_witness :
    sendDataToWindowsPrinterEffects [7] "DYMO LabelWriter 450" "/tmp" "aa" true
      = ([WinEffect.writeFileSync (tmpFile "tmp." "" "/tmp" "aa") [7],
          WinEffect.execRawPrint "DYMO LabelWriter 450"
            (tmpFile "tmp." "" "/tmp" "aa")]
          ++ (if true then [WinEffect.unlinkSync (tmpFile "tmp." "" "/tmp" "aa")]
            else []),
         true) ∧
    ((WinEffect.unlinkSync (tmpFile "tmp." "" "/tmp" "aa")
        ∈ (sendDataToWindowsPrinterEffects [7] "DYMO LabelWriter 450" "/tmp"
            "aa" true).1)
      ↔ true = true) ∧
    tmpFile "tmp." "" "/tmp" "aa" ≠ tmpFile "tmp." "" "/tmp" "bb" :=
  C4_cleanup_only_on_success [7] "DYMO LabelWriter 450" "/tmp" "aa" "bb" true
    (by decide)

end DymoServices

namespace DymoServices

/-- Witness for C2 at a one-row bitmap printed twice. -/
theorem C2_form_feeds_witness :
    ([[255]] : List (List Nat)).length ≠ 0 ∧ (1 : Int) ≤ 2 ∧
    (∃ chunks, printBitmap [] [[255]] 2 = .ok chunks ∧
      chunks = init [] ((([[255]] : List (List Nat)).headD []).length * 8)
          ([[255]] : List (List Nat)).length ++
        (List.range (2 : Int).toNat).flatMap
          (copyChunks [[255]] (2 : Int).toNat) ∧
      chunks.count CMD_FULL_FORM_FEED = 1 ∧
      chunks.count CMD_SHORT_FORM_FEED = (2 : Int).toNat - 1 ∧
      chunks.getLast? = some CMD_FULL_FORM_FEED) :=
  ⟨by decide, by decide, C2_form_feeds [] [[255]] 2 (by decide) (by decide)⟩

end DymoServices

/-- Setting an element in the right part of an appended list. -/
theorem list_set_append {α : Type} (l l2 : List α) (i : Nat) (v : α) :
    (l ++ l2).set (l.length + i) v = l ++ l2.set i v := by
  induction l with
  | nil => simp
  | cons a t ih =>
    have harith : (a :: t).length + i = (t.length + i) + 1 := by
      simp; omega
    rw [List.cons_append, harith, List.set_cons_succ, ih, List.cons_append]

namespace DymoServices

/-- `rowStep` preserves the row's byte count (`Array#[i] =` on an existing
index). -/
theorem rowStep_length (data : Nat → Nat → Nat) (y : Nat) (row : List Nat)
    (x : Nat) : (rowStep data y row x).length = row.length := by
  unfold rowStep
  split <;> simp

/-- The inner scan fold preserves the row's byte count. -/
theorem foldl_rowStep_length (data : Nat → Nat → Nat) (y : Nat)
    (xs : List Nat) : ∀ row : List Nat,
    (xs.foldl (rowStep data y) row).length = row.length := by
  induction xs with
  | nil => intro row; rfl
  | cons x xs ih =>
    intro row
    rw [List.foldl_cons, ih, rowStep_length]

/-- A fully scanned row has `Math.ceil(width / 8)` bytes. -/
theorem scanRow_length (data : Nat → Nat → Nat) (w y : Nat) :
    (scanRow data w y).length = (w + 7) / 8 := by
  unfold scanRow
  rw [foldl_rowStep_length]
  simp

/-- The scan callback on the first pixel of a not-yet-allocated row `y`
appends the freshly zeroed row and applies the row-local step to it. -/
theorem scanPixel_new_row (data : Nat → Nat → Nat) (w x y : Nat)
    (bm : List (List Nat)) (h : bm.length = y) :
    scanPixel data w bm x y
      = bm ++ [rowStep data y (List.replicate ((w + 7) / 8) 0) x] := by
  have hle : bm.length ≤ y := le_of_eq h
  have hgetD : (bm ++ [List.replicate ((w + 7) / 8) 0]).getD y []
      = List.replicate ((w + 7) / 8) 0 := by
    rw [List.getD_append_right _ _ _ _ (by omega)]
    have : y - bm.length = 0 := by omega
    rw [this]
    rfl
  have hset : ∀ v : List Nat,
      (bm ++ [List.replicate ((w + 7) / 8) 0]).set y v = bm ++ [v] := by
    intro v
    have : y = bm.length + 0 := by omega
    rw [this, list_set_append]
    rfl
  simp only [scanPixel, rowStep, if_pos hle]
  by_cases hb : data x y < 50
  · rw [if_pos hb, if_pos hb, hgetD, hset]
  · rw [if_neg hb, if_neg hb]

/-- The scan callback on a later pixel of the already-allocated last row
only applies the row-local step to that row. -/
theorem scanPixel_existing_row (data : Nat → Nat → Nat) (w x y : Nat)
    (front : List (List Nat)) (row : List Nat) (h : front.length = y) :
    scanPixel data w (front ++ [row]) x y
      = front ++ [rowStep data y row x] := by
  have hlen : (front ++ [row]).length = y + 1 := by simp [h]
  have hnle : ¬ (front ++ [row]).length ≤ y := by omega
  have hgetD : (front ++ [row]).getD y [] = row := by
    rw [List.getD_append_right _ _ _ _ (by omega)]
    have : y - front.length = 0 := by omega
    rw [this]
    rfl
  have hset : ∀ v : List Nat, (front ++ [row]).set y v = front ++ [v] := by
    intro v
    have : y = front.length + 0 := by omega
    rw [this, list_set_append]
    rfl
  simp only [scanPixel, rowStep, if_neg hnle]
  by_cases hb : data x y < 50
  · rw [if_pos hb, if_pos hb, hgetD, hset]
  · rw [if_neg hb, if_neg hb]

/-- Scanning any further pixels of row `y` keeps folding the row-local step
over the last row. -/
theorem foldl_scanPixel_row (data : Nat → Nat → Nat) (w y : Nat)
    (xs : List Nat) : ∀ (front : List (List Nat)) (row : List Nat),
    front.length = y →
    xs.foldl (fun bm x => scanPixel data w bm x y) (front ++ [row])
      = front ++ [xs.foldl (rowStep data y) row] := by
  induction xs with
  | nil => intro front row _; rfl
  | cons x xs ih =>
    intro front row h
    rw [List.foldl_cons, scanPixel_existing_row data w x y front row h,
      ih front _ h, List.foldl_cons]

/-- One full pass of the inner scan loop over row `y` appends exactly
`scanRow data w y` to the rows built so far. -/
theorem inner_loop_scanRow (data : Nat → Nat → Nat) (w y : Nat)
    (front : List (List Nat)) (h : front.length = y) (hw : 1 ≤ w) :
    (List.range w).foldl (fun bm x => scanPixel data w bm x y) front
      = front ++ [scanRow data w y] := by
  obtain ⟨v, rfl⟩ : ∃ v, w = v + 1 := ⟨w - 1, by omega⟩
  rw [List.range_succ_eq_map, List.foldl_cons,
    scanPixel_new_row data _ 0 y front h,
    foldl_scanPixel_row data _ y _ front _ h]
  unfold scanRow
  rw [List.range_succ_eq_map, List.foldl_cons]

/-- `convertImageToBitmap` builds exactly one `scanRow` per image row, top
to bottom. -/
theorem convertImageToBitmap_eq_map (data : Nat → Nat → Nat) (w h : Nat)
    (hw : 1 ≤ w) :
    convertImageToBitmap data w h = (List.range h).map (scanRow data w) := by
  induction h with
  | zero => rfl
  | succ k ih =>
    unfold convertImageToBitmap at ih ⊢
    rw [List.range_succ, List.foldl_append, ih, List.foldl_cons,
      List.foldl_nil, inner_loop_scanRow data w k _ (by simp) hw,
      List.map_append]
    rfl

end DymoServices

namespace DymoServices

/-- Effect of one row-local step on one bit of one byte of the row:
bit `b` of byte `j` flips to 1 exactly for a dark pixel with
`x / 8 = j` and `7 - x % 8 = b`; all other bits are untouched. -/
theorem rowStep_testBit (data : Nat → Nat → Nat) (y x n : Nat)
    (row : List Nat) (hrow : row.length = n) (hx : x < 8 * n) (j b : Nat) :
    ((rowStep data y row x).getD j 0).testBit b
      = (((row.getD j 0).testBit b)
          || (decide (x / 8 = j) && decide (7 - x % 8 = b)
              && decide (data x y < 50))) := by
  unfold rowStep
  by_cases hdata : data x y < 50
  · rw [if_pos hdata]
    by_cases hj : x / 8 = j
    · subst hj
      have hlt : x / 8 < row.length := by omega
      rw [show (row.set (x / 8)
            (setBit (row.getD (x / 8) 0) (7 - x % 8))).getD (x / 8) 0
          = setBit (row.getD (x / 8) 0) (7 - x % 8) from by
        simp [List.getD_eq_getElem?_getD, List.getElem?_set_self', hlt]]
      rw [setBit, Nat.testBit_or, Nat.shiftLeft_eq, Nat.one_mul,
        Nat.testBit_two_pow]
      simp [hdata]
    · rw [show (row.set (x / 8)
            (setBit (row.getD (x / 8) 0) (7 - x % 8))).getD j 0
          = row.getD j 0 from by
        simp [List.getD_eq_getElem?_getD, List.getElem?_set_ne, hj]]
      simp [hj]
  · rw [if_neg hdata]
    simp [hdata]

/-- Bit census of the inner scan fold: a bit ends up set exactly when it
was set before or some processed pixel is dark and addresses it. -/
theorem foldl_rowStep_testBit (data : Nat → Nat → Nat) (y n : Nat) :
    ∀ (xs : List Nat) (row : List Nat), row.length = n →
    (∀ x ∈ xs, x < 8 * n) → ∀ j b,
    ((xs.foldl (rowStep data y) row).getD j 0).testBit b
      = (((row.getD j 0).testBit b)
          || xs.any (fun x =>
              decide (x / 8 = j) && decide (7 - x % 8 = b)
                && decide (data x y < 50))) := by
  intro xs
  induction xs with
  | nil =>
    intro row hrow hx j b
    simp
  | cons x xs ih =>
    intro row hrow hx j b
    rw [List.foldl_cons,
      ih (rowStep data y row x) (by rw [rowStep_length, hrow])
        (fun z hz => hx z (List.mem_cons_of_mem x hz)) j b,
      rowStep_testBit data y x n row hrow (hx x (List.mem_cons_self x xs)) j b,
      List.any_cons, Bool.or_assoc]

/-- Bit census of one fully scanned zero-initialised row: bit `b` of byte
`j` is set exactly when pixel `x = 8 j + (7 - b)` exists and is dark. -/
theorem scanRow_testBit (data : Nat → Nat → Nat) (w y j b : Nat)
    (hb : b < 8) :
    ((scanRow data w y).getD j 0).testBit b
      = (decide (8 * j + (7 - b) < w)
          && decide (data (8 * j + (7 - b)) y < 50)) := by
  unfold scanRow
  rw [foldl_rowStep_testBit data y ((w + 7) / 8) (List.range w) _ (by simp)
    (fun x hx => by rw [List.mem_range] at hx; omega) j b]
  rw [show ((List.replicate ((w + 7) / 8) (0 : Nat)).getD j 0) = 0 from by
    simp [List.getD_eq_getElem?_getD, List.getElem?_replicate]
    split <;> simp]
  rw [Nat.zero_testBit, Bool.false_or]
  by_cases hcase : 8 * j + (7 - b) < w ∧ data (8 * j + (7 - b)) y < 50
  · have hany : (List.range w).any (fun x =>
        decide (x / 8 = j) && decide (7 - x % 8 = b)
          && decide (data x y < 50)) = true := by
      rw [List.any_eq_true]
      refine ⟨8 * j + (7 - b), List.mem_range.mpr hcase.1, ?_⟩
      have h1 : (8 * j + (7 - b)) / 8 = j := by omega
      have h2 : 7 - (8 * j + (7 - b)) % 8 = b := by omega
      simp [h1, h2, hcase.2]
    rw [hany]
    simp [hcase.1, hcase.2]
  · have hany : (List.range w).any (fun x =>
        decide (x / 8 = j) && decide (7 - x % 8 = b)
          && decide (data x y < 50)) = false := by
      rw [List.any_eq_false]
      intro x hxmem
      rw [List.mem_range] at hxmem
      simp only [Bool.and_eq_true, decide_eq_true_eq, not_and, and_imp]
      intro h1 h2 h3
      have hxeq : x = 8 * j + (7 - b) := by omega
      exact hcase (by rw [← hxeq]; exact ⟨hxmem, h3⟩)
    rw [hany]
    rcases Decidable.not_and_iff_or_not.mp hcase with h | h <;> simp [h]

end DymoServices

namespace DymoServices

/--
C5: for an image of width `w ≥ 1` and height `h` (with `data` the
post-pipeline red channel), `convertImageToBitmap` returns exactly `h`
rows of exactly `Math.ceil(w / 8)` bytes each, and bit `b` of byte `j` of
row `y` is 1 exactly when the pixel `x = 8 j + (7 - b)` — i.e. bit
position `7 - (x mod 8)` of byte `Math.floor(x / 8)` — exists (`x < w`)
and its red channel value is strictly below 50; every other bit, including
the unused trailing bits of the final byte, is 0.
-/
theorem C5_rasterizer (data : Nat → Nat → Nat) (width height : Nat)
    (hw : 1 ≤ width) :
    (convertImageToBitmap data width height).length = height ∧
    (∀ row ∈ convertImageToBitmap data width height,
      row.length = (width + 7) / 8) ∧
    ∀ y, y < height → ∀ j b, b < 8 →
      (((convertImageToBitmap data width height).getD y []).getD
          j 0).testBit b
        = (decide (8 * j + (7 - b) < width)
            && decide (data (8 * j + (7 - b)) y < 50)) := by
  rw [convertImageToBitmap_eq_map data width height hw]
  refine ⟨by simp, ?_, ?_⟩
  · intro row hrow
    rw [List.mem_map] at hrow
    obtain ⟨y, -, rfl⟩ := hrow
    exact scanRow_length data width y
  · intro y hy j b hb
    have hrow : ((List.range height).map (scanRow data width)).getD y []
        = scanRow data width y := by
      rw [List.getD_eq_getElem?_getD, List.getElem?_map,
        List.getElem?_range hy]
      rfl
    rw [hrow, scanRow_testBit data width y j b hb]

/-- Witness for C5 on a 3×2 checkerboard red channel (dark exactly on
pixels with even `x + y`). -/
theorem C5_rasterizer_witness :
    (1 : Nat) ≤ 3 ∧
    ((convertImageToBitmap (fun x y => 60 * ((x + y) % 2)) 3 2).length = 2 ∧
     (∀ row ∈ convertImageToBitmap (fun x y => 60 * ((x + y) % 2)) 3 2,
        row.length = (3 + 7) / 8) ∧
     ∀ y, y < 2 → ∀ j b, b < 8 →
       (((convertImageToBitmap (fun x y => 60 * ((x + y) % 2)) 3 2).getD y
           []).getD j 0).testBit b
         = (decide (8 * j + (7 - b) < 3)
             && decide ((fun x y => 60 * ((x + y) % 2))
                 (8 * j + (7 - b)) y < 50))) :=
  ⟨by decide,
   C5_rasterizer (fun x y => 60 * ((x + y) % 2)) 3 2 (by decide)⟩

end DymoServices
